import Mathlib

/-
Verification of the AnimateGifApp job-lifecycle coordinator.

The definitions below are a shallow embedding of the two source files:
app.py (the Flask coordinator: registry, runner, routes) and
video_to_gif.py (the conversion adapter).  External moviepy calls are
modelled by an environment record saying which of them raises and what the
source clip looks like; everything else follows the Python control flow.
-/

namespace AnimateGif

/-- Job status values stored in the conversion task registry
(the strings processing, completed, failed in app.py). -/
inductive Status where
  | processing
  | completed
  | failed
deriving DecidableEq

/-- One entry of the global conversion_tasks dictionary of app.py.
The error and output_filename keys are optional because the code only sets
them on some paths (the dict created at app.py line 103 has neither). -/
structure Task where
  status : Status
  progress : Int
  error : Option String
  output_filename : Option String
deriving DecidableEq

/-- The global conversion_tasks mapping from job id to its entry. -/
abbrev Registry : Type := String → Option Task

/-- Assignment of a single key of the registry, as a Python dict item
assignment does. -/
def Registry.set (reg : Registry) (j : String) (t : Task) : Registry :=
  fun k => if k = j then some t else reg k

/-- Embeds update_progress (app.py lines 134-137): when the job id is
present, assign its progress field; otherwise do nothing. -/
def update_progress (reg : Registry) (j : String) (p : Int) : Registry :=
  match reg j with
  | some t => Registry.set reg j { t with progress := p }
  | none => reg

/-- Embeds the completion step of background_convert (app.py line 119):
conversion_tasks[job_id].update with status completed and progress 100.
Indexing a missing key raises KeyError, which the model renders as none. -/
def complete (reg : Registry) (j : String) : Option Registry :=
  match reg j with
  | none => none
  | some t => some (Registry.set reg j { t with status := .completed, progress := 100 })

/-- Outcomes of the download route.  keyFault models the uncaught KeyError
that indexing output_filename on an entry lacking that key would raise. -/
inductive DownloadOutcome where
  | notFound
  | notCompleted
  | fileMissing
  | keyFault
  | ok
deriving DecidableEq

/-- Embeds download (app.py lines 205-225) over the registry and a file
store mapping output filenames to existence.  Returns the outcome, the
registry afterwards and the file store afterwards.  The source deletes the
registry entry after sending the file; it never touches the file store. -/
def download (reg : Registry) (files : String → Bool) (j : String) :
    DownloadOutcome × Registry × (String → Bool) :=
  match reg j with
  | none => (.notFound, reg, files)
  | some t =>
    if t.status ≠ .completed then (.notCompleted, reg, files)
    else
      match t.output_filename with
      | none => (.keyFault, reg, files)
      | some f =>
        if files f = false then (.fileMissing, reg, files)
        else (.ok, fun k => if k = j then none else reg k, files)

/-- A registry holding one completed job with a known output filename. -/
def regCompleted : Registry :=
  Registry.set (fun _ => none) "jobA"
    { status := .completed, progress := 100, error := none,
      output_filename := some "out.gif" }

/-- A file store in which exactly the completed job's output exists. -/
def filesOut : String → Bool := fun f => f == "out.gif"

/-- C8: update_progress on a present id rewrites only the progress field of
that id's entry, keeping its status, error detail and output filename, and
leaves the entry of every other id unchanged. -/
theorem C8_update_progress_frame (reg : Registry) (j : String) (t : Task) (p : Int)
    (hj : reg j = some t) :
    (update_progress reg j p) j =
      some { status := t.status, progress := p, error := t.error,
             output_filename := t.output_filename } ∧
    (∀ k, k ≠ j → (update_progress reg j p) k = reg k) := by
  constructor
  · simp [update_progress, hj, Registry.set]
  · intro k hk
    simp [update_progress, hj, Registry.set, hk]

/-- C8 witness: the frame condition at the concrete completed job. -/
theorem C8_update_progress_witness :
    (update_progress regCompleted "jobA" 42) "jobA" =
      some { status := .completed, progress := 42, error := none,
             output_filename := some "out.gif" } ∧
    (update_progress regCompleted "jobA" 42) "jobB" = regCompleted "jobB" := by
  have h := C8_update_progress_frame regCompleted "jobA"
    { status := .completed, progress := 100, error := none,
      output_filename := some "out.gif" } 42 (by decide)
  exact ⟨h.1, h.2 "jobB" (by decide)⟩

/-- C2 counterexample: on a Completed entry holding progress 100, an
update_progress call with 50 changes the entry, so the claimed no-op is
false at this input. -/
theorem C2_not_noop_counterexample :
    ¬ ((update_progress regCompleted "jobA" 50) "jobA" = regCompleted "jobA") := by
  decide

/-- C2 (amended): after completion, update_progress on the same id keeps
the status Completed and the error and output fields, but overwrites the
progress field with the new value; it is not a full no-op. -/
theorem C2_progress_overwritten (reg : Registry) (j : String) (t : Task) (p : Int)
    (hj : reg j = some t) (hs : t.status = .completed) :
    (update_progress reg j p) j =
      some { status := .completed, progress := p, error := t.error,
             output_filename := t.output_filename } := by
  obtain ⟨st, pr, er, out⟩ := t
  simp only [Task.mk.injEq] at hs ⊢
  subst hs
  simp [update_progress, hj, Registry.set]

/-- C2 witness: the amended statement at the concrete completed job. -/
theorem C2_progress_overwritten_witness :
    (update_progress regCompleted "jobA" 50) "jobA" =
      some { status := .completed, progress := 50, error := none,
             output_filename := some "out.gif" } :=
  C2_progress_overwritten regCompleted "jobA"
    { status := .completed, progress := 100, error := none,
      output_filename := some "out.gif" } 50 (by decide) rfl

/-- C4 counterexample: completing a job whose registry entry is missing
raises (none renders the KeyError of app.py line 119), so the operation is
not the fault-free guarded no-op the claim states. -/
theorem C4_keyerror_counterexample : complete (fun _ => none) "jobZ" = none := by
  rfl

/-- C4 (amended): the complete step raises a KeyError on a missing entry,
and on a present entry sets status Completed and progress 100 while
keeping the remaining fields. -/
theorem C4_complete_behaviour (reg : Registry) (j : String) :
    (reg j = none → complete reg j = none) ∧
    (∀ t, reg j = some t →
      complete reg j = some (Registry.set reg j
        { t with status := .completed, progress := 100 })) := by
  constructor
  · intro h
    simp [complete, h]
  · intro t h
    simp [complete, h]

/-- C4 witness: both arms of the amended statement at concrete inputs. -/
theorem C4_complete_witness :
    complete (fun _ => none) "jobQ" = none ∧
    complete regCompleted "jobA" = some (Registry.set regCompleted "jobA"
      { status := .completed, progress := 100, error := none,
        output_filename := some "out.gif" }) :=
  ⟨(C4_complete_behaviour (fun _ => none) "jobQ").1 rfl,
   (C4_complete_behaviour regCompleted "jobA").2
     { status := .completed, progress := 100, error := none,
       output_filename := some "out.gif" } (by decide)⟩

/-- C1 counterexample: retrieving the concrete completed job succeeds, yet
the output file still exists in the store afterwards, so the artifact is
not deleted at retrieval time as the claim states. -/
theorem C1_file_survives_counterexample :
    ¬ ((download regCompleted filesOut "jobA").1 = .ok →
       (download regCompleted filesOut "jobA").2.2 "out.gif" = false) := by
  decide

/-- C1 (amended): a successful retrieval of a Completed job removes its
registry entry, so a second retrieval attempt for the same id returns
NotFound; the output file however is not deleted at retrieval time — the
file store is returned unchanged, the file awaiting the age-based sweep. -/
theorem C1_download_removes_entry_not_file (reg : Registry) (files : String → Bool)
    (j : String) (t : Task) (f : String) (hj : reg j = some t)
    (hs : t.status = .completed) (hf : t.output_filename = some f)
    (hex : files f = true) :
    (download reg files j).1 = .ok ∧
    (download reg files j).2.1 j = none ∧
    (download (download reg files j).2.1 (download reg files j).2.2 j).1 = .notFound ∧
    (download reg files j).2.2 = files := by
  have hd : download reg files j =
      (.ok, fun k => if k = j then none else reg k, files) := by
    simp [download, hj, hs, hf, hex]
  refine ⟨by rw [hd], ?_, ?_, by rw [hd]⟩
  · rw [hd]
    simp
  · rw [hd]
    simp [download]

/-- C1 witness: the amended statement at the concrete completed job. -/
theorem C1_download_witness :
    (download regCompleted filesOut "jobA").1 = .ok ∧
    (download regCompleted filesOut "jobA").2.1 "jobA" = none ∧
    (download (download regCompleted filesOut "jobA").2.1
       (download regCompleted filesOut "jobA").2.2 "jobA").1 = .notFound ∧
    (download regCompleted filesOut "jobA").2.2 = filesOut :=
  C1_download_removes_entry_not_file regCompleted filesOut "jobA"
    { status := .completed, progress := 100, error := none,
      output_filename := some "out.gif" } "out.gif" (by decide) rfl rfl (by decide)

/-- Parameters of convert_video_to_gif_web; durations and factors are
modelled as rationals. -/
structure ConvParams where
  fps : Int
  scale : ℚ
  start_time : ℚ
  duration : Option ℚ
  loops : Int
  speed : ℚ
deriving DecidableEq

/-- Environment describing the external moviepy calls of one adapter run:
which of them raises, the source clip's duration, whether the written
output file exists afterwards, and the text of a raised exception. -/
structure ConvEnv where
  openFails : Bool
  clipDuration : ℚ
  subclipFails : Bool
  speedFails : Bool
  resizeFails : Bool
  fpsFails : Bool
  writeFails : Bool
  outputExists : Bool
  exnDetail : String
deriving DecidableEq

/-- How one adapter run ends: returning True, returning False, or letting
an exception escape to the caller. -/
inductive ConvExit where
  | retTrue
  | retFalse
  | raised
deriving DecidableEq

/-- Observable outcome of one adapter run: the exit kind, the percentages
passed to the progress callback in order, whether the clip was opened,
whether clip.close() ran, and the arguments of the subclipped call when
one was made (start, optional end). -/
structure ConvResult where
  exit : ConvExit
  progress : List Int
  opened : Bool
  closed : Bool
  subclipArgs : Option (ℚ × Option ℚ)
deriving DecidableEq

/-- The start-time and duration adjustment of convert_video_to_gif_web
(video_to_gif.py lines 52-62): the arguments the code passes to
subclipped, or none when no subclip call is made. -/
def timeAdjustArgs (start_time : ℚ) (duration : Option ℚ) (clipDur : ℚ) :
    Option (ℚ × Option ℚ) :=
  if 0 < start_time then
    match duration with
    | some d =>
      if clipDur < start_time + d then
        some (start_time, some (start_time + (clipDur - start_time)))
      else
        some (start_time, some (start_time + d))
    | none => some (start_time, none)
  else
    match duration with
    | some d =>
      if clipDur < d then some (0, some clipDur) else some (0, some d)
    | none => none

/-- Embeds convert_video_to_gif_web (video_to_gif.py lines 14-104) against
an environment of external-call outcomes.  The progress milestones, the
open, transform and write phases and the try/finally around write_gif
follow the source; faults of the transform phase (subclipped,
with_speed_scaled, resized, with_fps) are raised outside any try block, so
they escape with nothing closing the clip.  The speed call only happens
for a speed other than 1 that is positive, the resize call only for a
scale other than 1, matching the source's guards. -/
def convert_video_to_gif_web (env : ConvEnv) (p : ConvParams) : ConvResult :=
  if env.openFails = true then
    { exit := .retFalse, progress := [5, -1], opened := false, closed := false,
      subclipArgs := none }
  else if (timeAdjustArgs p.start_time p.duration env.clipDuration).isSome = true ∧
      env.subclipFails = true then
    { exit := .raised, progress := [5, 20], opened := true, closed := false,
      subclipArgs := timeAdjustArgs p.start_time p.duration env.clipDuration }
  else if (¬ p.speed = 1 ∧ 0 < p.speed) ∧ env.speedFails = true then
    { exit := .raised, progress := [5, 20, 40], opened := true, closed := false,
      subclipArgs := timeAdjustArgs p.start_time p.duration env.clipDuration }
  else if ¬ p.scale = 1 ∧ env.resizeFails = true then
    { exit := .raised, progress := [5, 20, 40, 50], opened := true, closed := false,
      subclipArgs := timeAdjustArgs p.start_time p.duration env.clipDuration }
  else if env.fpsFails = true then
    { exit := .raised, progress := [5, 20, 40, 50, 70], opened := true, closed := false,
      subclipArgs := timeAdjustArgs p.start_time p.duration env.clipDuration }
  else if env.writeFails = true then
    { exit := .retFalse, progress := [5, 20, 40, 50, 70, 80, -1], opened := true,
      closed := true, subclipArgs := timeAdjustArgs p.start_time p.duration env.clipDuration }
  else if env.outputExists = true then
    { exit := .retTrue, progress := [5, 20, 40, 50, 70, 80, 100], opened := true,
      closed := true, subclipArgs := timeAdjustArgs p.start_time p.duration env.clipDuration }
  else
    { exit := .retFalse, progress := [5, 20, 40, 50, 70, 80, -1], opened := true,
      closed := true, subclipArgs := timeAdjustArgs p.start_time p.duration env.clipDuration }

/-- An environment in which every external call succeeds and the written
output file exists afterwards; the source clip lasts ten seconds. -/
def envOk : ConvEnv :=
  { openFails := false, clipDuration := 10, subclipFails := false,
    speedFails := false, resizeFails := false, fpsFails := false,
    writeFails := false, outputExists := true, exnDetail := "boom" }

/-- One half, as an already normalized rational: the default scale 0.5. -/
def half : ℚ := ⟨1, 2, by norm_num, Nat.coprime_one_left 2⟩

/-- The default form parameters of the convert route (app.py lines 175-182). -/
def pDef : ConvParams :=
  { fps := 10, scale := half, start_time := 0, duration := none, loops := 0,
    speed := 1 }

/-- On a run whose open succeeded the recorded subclip arguments are the
ones the time adjustment computes, whatever happens afterwards. -/
lemma convert_subclipArgs (env : ConvEnv) (p : ConvParams)
    (h : env.openFails = false) :
    (convert_video_to_gif_web env p).subclipArgs =
      timeAdjustArgs p.start_time p.duration env.clipDuration := by
  unfold convert_video_to_gif_web
  rw [h]
  simp only [Bool.false_eq_true, if_false]
  split_ifs <;> rfl

/-- C3 counterexample: with a failing subclipped call the clip was opened
but the run ends without clip.close() having run, so the adapter does not
release its resources on every exception path. -/
theorem C3_unclosed_counterexample :
    ¬ ((convert_video_to_gif_web { envOk with subclipFails := true }
          { pDef with start_time := 1 }).opened = true →
       (convert_video_to_gif_web { envOk with subclipFails := true }
          { pDef with start_time := 1 }).closed = true) := by
  decide

/-- C3 (amended): on every run that does not end in a raised exception —
both return paths, the write failure included — an opened clip is closed;
transform-phase exceptions escape with the clip left open. -/
theorem C3_closed_unless_raised (env : ConvEnv) (p : ConvParams)
    (hx : (convert_video_to_gif_web env p).exit ≠ .raised)
    (ho : (convert_video_to_gif_web env p).opened = true) :
    (convert_video_to_gif_web env p).closed = true := by
  revert hx ho
  unfold convert_video_to_gif_web
  split_ifs <;> simp

/-- C3 witness: a fully successful run opened and closed the clip. -/
theorem C3_closed_witness : (convert_video_to_gif_web envOk pDef).closed = true :=
  C3_closed_unless_raised envOk pDef (by decide) (by decide)

/-- C6 counterexample: a raised transform fault is an exit that is not a
success, yet the last reported percentage is 20, not -1. -/
theorem C6_exception_last_counterexample :
    ¬ (¬ (convert_video_to_gif_web { envOk with subclipFails := true }
            { pDef with start_time := 1 }).exit = .retTrue →
       (convert_video_to_gif_web { envOk with subclipFails := true }
            { pDef with start_time := 1 }).progress.getLast? = some (-1)) := by
  decide

/-- A run returning success reported exactly the seven milestones. -/
lemma convert_progress_of_retTrue (env : ConvEnv) (p : ConvParams)
    (hx : (convert_video_to_gif_web env p).exit = .retTrue) :
    (convert_video_to_gif_web env p).progress = [5, 20, 40, 50, 70, 80, 100] := by
  unfold convert_video_to_gif_web at hx ⊢
  split_ifs at hx ⊢ <;> first | rfl | exact absurd hx (by simp)

/-- A run returning failure reported either the failed-open pair or the
six milestones followed by the error sentinel. -/
lemma convert_progress_of_retFalse (env : ConvEnv) (p : ConvParams)
    (hx : (convert_video_to_gif_web env p).exit = .retFalse) :
    (convert_video_to_gif_web env p).progress = [5, -1] ∨
    (convert_video_to_gif_web env p).progress = [5, 20, 40, 50, 70, 80, -1] := by
  unfold convert_video_to_gif_web at hx ⊢
  split_ifs at hx ⊢ <;>
    first
      | exact Or.inl rfl
      | exact Or.inr rfl
      | exact absurd hx (by simp)

/-- C6 (amended): a run returning success reports exactly the strictly
increasing milestones 5, 20, 40, 50, 70, 80, 100 ending in 100, and a run
returning failure ends its reports with -1; exits by a raised exception
end with the last milestone reached instead (see the counterexample). -/
theorem C6_progress_shape (env : ConvEnv) (p : ConvParams) :
    ((convert_video_to_gif_web env p).exit = .retTrue →
      (convert_video_to_gif_web env p).progress = [5, 20, 40, 50, 70, 80, 100] ∧
      List.Chain' (fun a b => a < b) (convert_video_to_gif_web env p).progress ∧
      (convert_video_to_gif_web env p).progress.getLast? = some 100) ∧
    ((convert_video_to_gif_web env p).exit = .retFalse →
      (convert_video_to_gif_web env p).progress.getLast? = some (-1)) := by
  constructor
  · intro hx
    rw [convert_progress_of_retTrue env p hx]
    exact ⟨rfl, by norm_num [List.chain'_cons], rfl⟩
  · intro hx
    rcases convert_progress_of_retFalse env p hx with h | h <;> rw [h] <;> rfl

/-- C6 witness: the successful run's milestones are strictly increasing
and end with 100. -/
theorem C6_progress_witness :
    List.Chain' (fun a b => a < b) (convert_video_to_gif_web envOk pDef).progress ∧
    (convert_video_to_gif_web envOk pDef).progress.getLast? = some 100 :=
  ⟨((C6_progress_shape envOk pDef).1 (by decide)).2.1,
   ((C6_progress_shape envOk pDef).1 (by decide)).2.2⟩

/-- Whenever the time adjustment produces a two-argument subclip call, the
window's end never exceeds the source length. -/
lemma timeAdjustArgs_end_le (start_time : ℚ) (duration : Option ℚ) (clipDur : ℚ)
    (s e : ℚ) (h : timeAdjustArgs start_time duration clipDur = some (s, some e)) :
    e ≤ clipDur := by
  unfold timeAdjustArgs at h
  rcases duration with _ | d
  · split_ifs at h <;> simp_all
  · dsimp only at h
    split_ifs at h with hpos htr htr <;>
      simp only [Option.some.injEq, Prod.mk.injEq] at h <;>
      obtain ⟨h1, h2⟩ := h <;> subst h2 <;> linarith

/-- When start plus duration exceeds the source length the two-argument
subclip call runs from the start offset to the source's end. -/
lemma timeAdjustArgs_truncates (start_time d clipDur : ℚ)
    (hs : 0 ≤ start_time) (hlen : clipDur < start_time + d) :
    timeAdjustArgs start_time (some d) clipDur =
      some (start_time, some clipDur) := by
  unfold timeAdjustArgs
  by_cases hpos : 0 < start_time
  · rw [if_pos hpos]
    dsimp only
    rw [if_pos hlen]
    have he : start_time + (clipDur - start_time) = clipDur := by ring
    rw [he]
  · have hz : start_time = 0 := le_antisymm (not_lt.mp hpos) hs
    rw [if_neg hpos]
    dsimp only
    subst hz
    rw [if_pos (by linarith)]

/-- C7: the subclip window never extends past the source length, and when
start_offset plus duration exceeds the total length the call's end is the
source length, so the effective duration is the remaining length. -/
theorem C7_duration_clipped (env : ConvEnv) (p : ConvParams) (d : ℚ)
    (hopen : env.openFails = false) (hd : p.duration = some d)
    (hs : 0 ≤ p.start_time) :
    (∀ s e, (convert_video_to_gif_web env p).subclipArgs = some (s, some e) →
        e ≤ env.clipDuration) ∧
    (env.clipDuration < p.start_time + d →
      (convert_video_to_gif_web env p).subclipArgs =
        some (p.start_time, some env.clipDuration)) := by
  rw [convert_subclipArgs env p hopen]
  constructor
  · intro s e he
    exact timeAdjustArgs_end_le p.start_time p.duration env.clipDuration s e he
  · intro hlen
    rw [hd]
    exact timeAdjustArgs_truncates p.start_time d env.clipDuration hs hlen

/-- C7 witness: a ten second clip with start 8 and requested duration 5
subclips the window from 8 to 10, an effective duration of 2 seconds. -/
theorem C7_duration_witness :
    (convert_video_to_gif_web envOk
        { pDef with start_time := 8, duration := some 5 }).subclipArgs =
      some ((8 : ℚ), some (10 : ℚ)) :=
  (C7_duration_clipped envOk
      { pDef with start_time := 8, duration := some 5 } 5 rfl rfl
      (by norm_num [pDef])).2 (by norm_num [envOk, pDef])

/-- The entry background_convert installs at its start (app.py line 103):
a fresh dict holding only status processing and progress 0. -/
def initialTask : Task :=
  { status := .processing, progress := 0, error := none, output_filename := none }

/-- Folding the adapter's reported percentages through update_progress, as
the progress_callback lambda of app.py line 115 does for each report. -/
def applyProgress (j : String) (ps : List Int) (reg : Registry) : Registry :=
  ps.foldl (fun acc pc => update_progress acc j pc) reg

/-- The final dict update of background_convert (app.py lines 118-125):
completed with progress 100 on a True return, failed with the fixed detail
Conversion failed on a False return, failed with str(e) on a caught
exception. -/
def finalizeTask (env : ConvEnv) (ex : ConvExit) (t : Task) : Task :=
  match ex with
  | .retTrue => { t with status := .completed, progress := 100 }
  | .retFalse =>
    { t with status := .failed, progress := 0, error := some "Conversion failed" }
  | .raised =>
    { t with status := .failed, progress := 0, error := some env.exnDetail }

/-- Embeds background_convert (app.py lines 99-132): install the initial
entry, run the adapter feeding every reported percentage through
update_progress, then apply the final update to the entry.  The entry is
present throughout this sequential model, making the none arm unreachable. -/
def background_convert (env : ConvEnv) (p : ConvParams) (j : String)
    (reg : Registry) : Registry :=
  match applyProgress j (convert_video_to_gif_web env p).progress
      (Registry.set reg j initialTask) j with
  | some t =>
    Registry.set
      (applyProgress j (convert_video_to_gif_web env p).progress
        (Registry.set reg j initialTask)) j
      (finalizeTask env (convert_video_to_gif_web env p).exit t)
  | none =>
    applyProgress j (convert_video_to_gif_web env p).progress
      (Registry.set reg j initialTask)

/-- Feeding any report list through update_progress keeps the entry
present and touches only its progress field. -/
lemma applyProgress_get (j : String) (ps : List Int) :
    ∀ (reg : Registry) (t : Task), reg j = some t →
      ∃ q, applyProgress j ps reg j =
        some { status := t.status, progress := q, error := t.error,
               output_filename := t.output_filename } := by
  induction ps with
  | nil =>
    intro reg t h
    exact ⟨t.progress, by simpa [applyProgress] using h⟩
  | cons pc tl ih =>
    intro reg t h
    have h2 : update_progress reg j pc j = some { t with progress := pc } := by
      simp [update_progress, h, Registry.set]
    obtain ⟨q, hq⟩ := ih (update_progress reg j pc) { t with progress := pc } h2
    exact ⟨q, by simpa [applyProgress] using hq⟩

/-- C5 counterexample: with every call succeeding but the output file
missing afterwards, the adapter returns False and the runner records the
generic detail Conversion failed — not the claimed output missing. -/
theorem C5_detail_counterexample :
    background_convert { envOk with outputExists := false } pDef "job1"
        (fun _ => none) "job1" =
      some { status := .failed, progress := 0, error := some "Conversion failed",
             output_filename := none } ∧
    ("Conversion failed" : String) ≠ "output missing" := by
  constructor
  · decide
  · decide

/-- C5 (amended): the output-existence check happens inside the adapter,
which then returns False, and the runner records the job as Failed with
the generic detail Conversion failed; when the adapter returns True —
which entails the output file existed — the runner records Completed with
progress 100. -/
theorem C5_runner_finalization (env : ConvEnv) (p : ConvParams) (j : String)
    (reg : Registry) :
    ((convert_video_to_gif_web env p).exit = .retFalse →
      background_convert env p j reg j =
        some { status := .failed, progress := 0, error := some "Conversion failed",
               output_filename := none }) ∧
    ((convert_video_to_gif_web env p).exit = .retTrue →
      env.outputExists = true ∧
      background_convert env p j reg j =
        some { status := .completed, progress := 100, error := none,
               output_filename := none }) := by
  have hinit : (Registry.set reg j initialTask) j = some initialTask := by
    simp [Registry.set]
  obtain ⟨q, hq⟩ := applyProgress_get j (convert_video_to_gif_web env p).progress
    (Registry.set reg j initialTask) initialTask hinit
  constructor
  · intro hx
    unfold background_convert
    rw [hq, hx]
    simp [Registry.set, finalizeTask, initialTask]
  · intro hx
    refine ⟨?_, ?_⟩
    · revert hx
      unfold convert_video_to_gif_web
      split_ifs <;> simp_all
    · unfold background_convert
      rw [hq, hx]
      simp [Registry.set, finalizeTask, initialTask]

/-- C5 witness: both arms of the amended statement at concrete runs, the
failing one with the output missing and the succeeding one with it
present. -/
theorem C5_runner_witness :
    background_convert { envOk with outputExists := false } pDef "job2"
        (fun _ => none) "job2" =
      some { status := .failed, progress := 0, error := some "Conversion failed",
             output_filename := none } ∧
    background_convert envOk pDef "job2" (fun _ => none) "job2" =
      some { status := .completed, progress := 100, error := none,
             output_filename := none } :=
  ⟨(C5_runner_finalization { envOk with outputExists := false } pDef "job2"
      (fun _ => none)).1 (by decide),
   ((C5_runner_finalization envOk pDef "job2" (fun _ => none)).2 (by decide)).2⟩

/-- The allowed upload extensions (app.py line 45), as character lists. -/
def ALLOWED_EXTENSIONS : List (List Char) :=
  [String.toList "mp4", String.toList "avi", String.toList "mov",
   String.toList "mkv", String.toList "webm"]

/-- The characters after the last dot: the second component of the
rsplit on a dot with maxsplit one that allowed_file performs. -/
def afterLastDot : List Char → List Char
  | [] => []
  | c :: rest => if c = '.' ∧ '.' ∉ rest then rest else afterLastDot rest

/-- Embeds allowed_file (app.py lines 83-85): the name contains a dot and
the piece after its last dot, lowercased, is an allowed extension. -/
def allowed_file (filename : String) : Bool :=
  decide ('.' ∈ filename.toList) &&
    decide ((afterLastDot filename.toList).map Char.toLower ∈ ALLOWED_EXTENSIONS)

/-- Splitting a character list on dots, every segment in order. -/
def splitOnDot : List Char → List (List Char)
  | [] => [[]]
  | c :: rest =>
    if c = '.' then [] :: splitOnDot rest
    else
      match splitOnDot rest with
      | [] => [[c]]
      | g :: gs => (c :: g) :: gs

/-- Acceptance as the claim words it: the name contains a dot and its
final dot-separated segment, lowercased, is an allowed extension. -/
def allowed_file_spec (filename : String) : Bool :=
  decide ('.' ∈ filename.toList) &&
    decide (((splitOnDot filename.toList).getLastD []).map Char.toLower ∈
      ALLOWED_EXTENSIONS)

lemma splitOnDot_ne_nil (l : List Char) : splitOnDot l ≠ [] := by
  induction l with
  | nil => simp [splitOnDot]
  | cons c rest ih =>
    unfold splitOnDot
    by_cases h : c = '.'
    · simp [h]
    · rw [if_neg h]
      cases hs : splitOnDot rest with
      | nil => simp
      | cons g gs => simp

lemma splitOnDot_no_dot (l : List Char) (h : '.' ∉ l) : splitOnDot l = [l] := by
  induction l with
  | nil => rfl
  | cons c rest ih =>
    have hc : ¬ c = '.' := fun hc => h (by simp [hc])
    have hrest : '.' ∉ rest := fun hr => h (List.mem_cons_of_mem c hr)
    unfold splitOnDot
    rw [if_neg hc, ih hrest]

lemma splitOnDot_len_of_dot (l : List Char) (h : '.' ∈ l) :
    2 ≤ (splitOnDot l).length := by
  induction l with
  | nil => cases h
  | cons c rest ih =>
    unfold splitOnDot
    by_cases hc : c = '.'
    · rw [if_pos hc]
      have := splitOnDot_ne_nil rest
      cases hs : splitOnDot rest with
      | nil => exact absurd hs this
      | cons g gs => simp
    · rw [if_neg hc]
      have hrest : '.' ∈ rest := by
        rcases List.mem_cons.mp h with h1 | h1
        · exact absurd h1.symm hc
        · exact h1
      have h2 := ih hrest
      cases hs : splitOnDot rest with
      | nil => exact absurd hs (splitOnDot_ne_nil rest)
      | cons g gs =>
        rw [hs] at h2
        simpa using h2

/-- For a name containing a dot, the final dot-separated segment is the
piece after the last dot. -/
lemma getLastD_splitOnDot (l : List Char) (h : '.' ∈ l) :
    (splitOnDot l).getLastD [] = afterLastDot l := by
  induction l with
  | nil => cases h
  | cons c rest ih =>
    unfold splitOnDot afterLastDot
    by_cases hc : c = '.'
    · rw [if_pos hc]
      rw [List.getLastD_cons]
      by_cases hrest : '.' ∈ rest
      · rw [ih hrest, if_neg (by simp [hc, hrest])]
      · rw [splitOnDot_no_dot rest hrest, if_pos ⟨hc, hrest⟩]
        rfl
    · rw [if_neg hc]
      have hrest : '.' ∈ rest := by
        rcases List.mem_cons.mp h with h1 | h1
        · exact absurd h1.symm hc
        · exact h1
      rw [if_neg (by simp [hc])]
      rw [← ih hrest]
      have hlen := splitOnDot_len_of_dot rest hrest
      cases hs : splitOnDot rest with
      | nil => exact absurd hs (splitOnDot_ne_nil rest)
      | cons g gs =>
        rw [hs] at hlen
        cases gs with
        | nil => simp at hlen
        | cons g2 gs2 => simp [List.getLastD_cons]

/-- C9: allowed_file accepts exactly the names that contain a dot and
whose final dot-separated segment lowercases to an allowed extension;
CLIP.MP4 is accepted, a dotless name is rejected. -/
theorem C9_allowed_file_extension :
    (∀ f : String, allowed_file f = allowed_file_spec f) ∧
    allowed_file "CLIP.MP4" = true ∧ allowed_file "clipmp4" = false := by
  refine ⟨?_, by decide, by decide⟩
  intro f
  unfold allowed_file allowed_file_spec
  by_cases h : '.' ∈ f.toList
  · rw [getLastD_splitOnDot f.toList h]
  · have h2 : ¬ ('.' ∈ f.data) := h
    simp [h2]

/-- The two credential carriers of a request: the X-API-Key header and
the api_key form field; none models an absent one. -/
structure AuthRequest where
  header : Option String
  form : Option String
deriving DecidableEq

/-- Outcome of the require_api_key gate. -/
inductive AuthOutcome where
  | required401
  | invalid403
  | allowed
deriving DecidableEq

/-- The Python or-expression of app.py line 64: the header value when it
is truthy, meaning present and non-empty, otherwise the form value. -/
def pick_api_key (r : AuthRequest) : Option String :=
  match r.header with
  | some h => if h = "" then r.form else some h
  | none => r.form

/-- Embeds require_api_key (app.py lines 59-81): the 401 outcome when the
picked value is falsy, the 403 outcome when it differs from the configured
key, and pass-through otherwise. -/
def require_api_key (key : String) (r : AuthRequest) : AuthOutcome :=
  match pick_api_key r with
  | none => .required401
  | some k => if k = "" then .required401 else if k = key then .allowed else .invalid403

/-- C10: the gate takes the header when it is a non-empty string and
otherwise falls back to the form field, and when both carriers are absent
or empty the outcome is the 401 credential-required one, not the 403
invalid one. -/
theorem C10_credential_gate (key : String) (r : AuthRequest) :
    (∀ h, r.header = some h → ¬ h = "" → pick_api_key r = some h) ∧
    ((r.header = none ∨ r.header = some "") → pick_api_key r = r.form) ∧
    ((r.header = none ∨ r.header = some "") → (r.form = none ∨ r.form = some "") →
      require_api_key key r = .required401) := by
  refine ⟨?_, ?_, ?_⟩
  · intro h hh hne
    simp [pick_api_key, hh, hne]
  · rintro (hh | hh) <;> simp [pick_api_key, hh]
  · rintro (hh | hh) (hf | hf) <;>
      simp [require_api_key, pick_api_key, hh, hf]

/-- C10 witness: a request carrying no header and no form credential gets
the 401 outcome. -/
theorem C10_credential_witness :
    require_api_key "secret" { header := none, form := none } = .required401 :=
  (C10_credential_gate "secret" { header := none, form := none }).2.2
    (Or.inl rfl) (Or.inl rfl)

end AnimateGif
